import Mathlib

/-!
# Verification of the synthdesk-router core against its specification

This file gives a shallow embedding, in Lean 4, of the parts of the
synthdesk-router Python code base that the checked claims are about:

* the epistemic allocator (`src/router/allocator.py`),
* the constraint / veto layer (`src/router/constraints.py`),
* router state updates (`src/router/state.py`),
* the mock uncertainty envelope (`src/router/envelope.py`),
* the emitter (`src/router/emit.py`),
* the schema validator (`src/schemas/router_intent.py`),
* authority binding and the demotion watcher (`src/router/authority.py`,
  `src/router/main.py`),
* the per-symbol body of the runtime/replay loop (`src/router/main.py`).

Conventions of the embedding:

* Python floats are embedded as `ℚ`.  Every numeric fact proved below is
  insensitive to the float/rational distinction at the inputs considered
  (the quantities are far from any rounding boundary), and this is noted
  where it matters.
* Python `int(x)` (truncation towards zero) is embedded as `pyInt`.
* Python dictionaries with a fixed set of consulted keys are embedded as
  structures of `Option` fields; `none` models both a missing key and a
  value of the wrong runtime type, because the code guards every read
  with an `isinstance` check that treats those two cases identically.
* Filesystem writes are embedded by a `writeOk : Bool` parameter: the
  list of records a call appends to the spine is `[rec]` when the
  underlying append succeeds and `[]` when it raises `OSError`.
* Cryptographic primitives (Ed25519 verification, SHA-256) are not
  computable inside the embedding; they enter as oracle parameters
  (`sigVerify`, `selfHash`, `bodyHash`) so that the *control flow* of
  certificate verification is embedded faithfully.
-/

namespace SynthdeskRouter

/-! ## Basic enumerations (src/router/allocator.py) -/

/-- Source `Direction` enum: exposure polarity. -/
inductive Direction where
  | flat
  | long
  | short
deriving DecidableEq, Repr

/-- The `.value` string of a `Direction` member. -/
def Direction.value : Direction → String
  | .flat => "flat"
  | .long => "long"
  | .short => "short"

/-- Source `RiskCap` enum: maximum acceptable risk tier for v0.2. -/
inductive RiskCap where
  | zero
  | low
  | medium
deriving DecidableEq, Repr

/-- The `.value` string of a `RiskCap` member. -/
def RiskCap.value : RiskCap → String
  | .zero => "zero"
  | .low => "low"
  | .medium => "medium"

/-- Source `Regime` enum: market regime classifications. -/
inductive Regime where
  | chop
  | high_vol
  | drift
  | breakout
  | unknown
deriving DecidableEq, Repr

/-! ## Regime posture map (src/router/allocator.py) -/

/-- Quantization denominator `SIZE_PCT_SCALE`. -/
def SIZE_PCT_SCALE : ℤ := 10000

/-- Source `RegimePosture`: posture specification for a given regime. -/
structure RegimePosture where
  direction : Direction
  base_allocation_q : ℤ
  uncertainty_discount : ℚ
  risk_cap : RiskCap
  rationale : String
deriving DecidableEq, Repr

/-- Source `REGIME_POSTURE_MAP`: the frozen regime-to-posture mapping.  The map is
total on `Regime`, so the Python fallback `get(regime, map[UNKNOWN])` needs
no separate case. -/
def REGIME_POSTURE_MAP : Regime → RegimePosture
  | .chop =>
      { direction := .flat, base_allocation_q := 0, uncertainty_discount := 1,
        risk_cap := .zero, rationale := "regime=chop: no edge, flat posture" }
  | .high_vol =>
      { direction := .flat, base_allocation_q := 0, uncertainty_discount := 1,
        risk_cap := .zero, rationale := "regime=high_vol: risk excess, no exposure" }
  | .drift =>
      { direction := .long, base_allocation_q := 2500, uncertainty_discount := 4/5,
        risk_cap := .low, rationale := "regime=drift: trend present, conservative long" }
  | .breakout =>
      { direction := .long, base_allocation_q := 5000, uncertainty_discount := 3/5,
        risk_cap := .medium, rationale := "regime=breakout: momentum event, moderate exposure" }
  | .unknown =>
      { direction := .flat, base_allocation_q := 0, uncertainty_discount := 1,
        risk_cap := .zero, rationale := "regime=unknown: unclassified, no exposure" }

/-! ## Entropy model (src/router/allocator.py) -/

/-- Source `EntropyState`: entropy metrics that modulate allocation. -/
structure EntropyState where
  regime_confidence : ℚ
  regime_age_seconds : ℚ
  transition_proximity : ℚ
deriving DecidableEq, Repr

/-- Source `EntropyState.combined_entropy`:
`regime_confidence * max(0, 1 - age/3600) * (1 - transition_proximity)`. -/
def EntropyState.combined_entropy (e : EntropyState) : ℚ :=
  let conf_factor := e.regime_confidence
  let staleness_factor := max 0 (1 - e.regime_age_seconds / 3600)
  let stability_factor := 1 - e.transition_proximity
  conf_factor * staleness_factor * stability_factor

/-- Source `default_entropy()`: the default entropy state `(0.5, 0.0, 0.3)`. -/
def default_entropy : EntropyState :=
  { regime_confidence := 1/2, regime_age_seconds := 0, transition_proximity := 3/10 }

/-! ## Allocation engine (src/router/allocator.py) -/

/-- Source `AllocationResult`: the output of the epistemic posture engine. -/
structure AllocationResult where
  direction : Direction
  size_pct_q : ℤ
  size_pct_scale : ℤ
  risk_cap : RiskCap
  rationale : List String
  base_allocation_q : ℤ
  entropy_factor : ℚ
  uncertainty_discount : ℚ
  final_factor : ℚ
deriving DecidableEq, Repr

/-- Python `int(x)` applied to a real-valued expression: truncation towards
zero.  In `allocate` the argument is `base * final + 0.5`, which implements
round-half-up for non-negative values. -/
def pyInt (q : ℚ) : ℤ :=
  if 0 ≤ q then ⌊q⌋ else ⌈q⌉

/-- Two-decimal rendering of a rational, rounding half to even, mirroring
the Python format `"%.2f"` used in allocator rationale strings.  On every
value arising in this development the binary float and the exact rational
round to the same two decimals. -/
def fmt2 (q : ℚ) : String :=
  let r : ℚ := q * 100
  let fl : ℤ := ⌊r⌋
  let frac : ℚ := r - fl
  let n : ℤ :=
    if frac > 1/2 then fl + 1
    else if frac < 1/2 then fl
    else if fl % 2 = 0 then fl else fl + 1
  let sign := if n < 0 then "-" else ""
  let m := n.natAbs
  let ip := m / 100
  let fp := m % 100
  sign ++ toString ip ++ "." ++ (if fp < 10 then "0" else "") ++ toString fp

/-- Source `allocate(regime, entropy, max_allocation_q)`: compute the
uncertainty-aware allocation for a regime.  Mirrors the source step by
step: posture lookup, entropy factor, uncertainty discount, round-half-up
quantization, clamping, rationale construction, and the final flat-forces-
zero rule (the rationale is built from the clamped size before that rule
fires, as in the source). -/
def allocate (regime : Regime) (entropy : EntropyState) (max_allocation_q : ℤ) :
    AllocationResult :=
  let posture := REGIME_POSTURE_MAP regime
  let entropy_factor := entropy.combined_entropy
  let uncertainty_discount := posture.uncertainty_discount
  let final_factor := entropy_factor * uncertainty_discount
  let raw_allocation := pyInt ((posture.base_allocation_q : ℚ) * final_factor + 1/2)
  let clamped := max 0 (min raw_allocation max_allocation_q)
  let rationale :=
    [posture.rationale,
     "entropy_factor=" ++ fmt2 entropy_factor,
     "final_allocation=" ++ toString clamped ++ "/" ++ toString SIZE_PCT_SCALE]
  let size_pct_q := if posture.direction = Direction.flat then 0 else clamped
  { direction := posture.direction,
    size_pct_q := size_pct_q,
    size_pct_scale := SIZE_PCT_SCALE,
    risk_cap := posture.risk_cap,
    rationale := rationale,
    base_allocation_q := posture.base_allocation_q,
    entropy_factor := entropy_factor,
    uncertainty_discount := uncertainty_discount,
    final_factor := final_factor }

/-- Python `str.lower()`, written at the character level so that it
reduces inside the kernel. -/
def pyLower (s : String) : String := String.mk (s.data.map Char.toLower)

/-- Python `str.upper()`, written at the character level so that it
reduces inside the kernel. -/
def pyUpper (s : String) : String := String.mk (s.data.map Char.toUpper)

/-- Python slicing `s[:n]`, written at the character level so that it
reduces inside the kernel. -/
def pyTake (s : String) (n : Nat) : String := String.mk (s.data.take n)

/-- Source `infer_regime(regime_str)`: fixed synonym table from regime strings to
the `Regime` enum; falsy input and unrecognized tokens become `unknown`. -/
def infer_regime (regime_str : Option String) : Regime :=
  match regime_str with
  | none => .unknown
  | some s =>
    if s = "" then .unknown
    else
      let r := pyLower s
      if r = "chop" ∨ r = "ranging" ∨ r = "sideways" then .chop
      else if r = "high_vol" ∨ r = "volatile" ∨ r = "high_volatility" then .high_vol
      else if r = "drift" ∨ r = "trend" ∨ r = "trending" then .drift
      else if r = "breakout" ∨ r = "momentum" ∨ r = "break" then .breakout
      else .unknown

/-! ## Router state (src/router/state.py) -/

/-- The `system` part of `RouterState`.  All fields exist from
construction on (the Python `__init__` populates the same four keys). -/
structure SystemState where
  listener_alive : Bool
  last_listener_event_ts : Option String
  violation_active : Bool
  last_violation_ts : Option String
deriving DecidableEq, Repr

/-- The per-symbol sub-dictionary of `RouterState.symbols`.  A key that the
Python dict does not hold is modelled by `none` (reads go through `.get`).
The legacy `last_intent` value is only ever written (and cleared) by the
v0.2 runtime, never read, so its contents are modelled as `Unit`. -/
structure SymbolState where
  regime : Option String
  last_regime_ts : Option String
  last_intent : Option Unit
  last_allocation : Option AllocationResult
  last_veto_reason : Option String
deriving DecidableEq, Repr

/-- The empty per-symbol dict `{}` created on first touch of a symbol. -/
def emptySymbolState : SymbolState :=
  { regime := none, last_regime_ts := none, last_intent := none,
    last_allocation := none, last_veto_reason := none }

/-- Source `RouterState`: the `symbols` dict (association list keyed by symbol,
first match wins, keys unique by construction) plus the `system` dict.
As in `RouterState.__init__`, there is no `authority_epoch_ts` field:
the constructor in `src/router/state.py` takes no such argument. -/
structure RouterState where
  symbols : List (String × SymbolState)
  system : SystemState
deriving DecidableEq, Repr

/-- Dictionary lookup `self.symbols.get(symbol)`. -/
def lookupSym : List (String × SymbolState) → String → Option SymbolState
  | [], _ => none
  | (k, v) :: rest, sym => if k = sym then some v else lookupSym rest sym

/-- Dictionary update: mutate the entry for `sym` in place if present,
otherwise first insert the empty dict (Python
`if symbol not in self.symbols: self.symbols[symbol] = {}` followed by
field assignments). -/
def updateSym : List (String × SymbolState) → String → (SymbolState → SymbolState) →
    List (String × SymbolState)
  | [], sym, f => [(sym, f emptySymbolState)]
  | (k, v) :: rest, sym, f =>
      if k = sym then (k, f v) :: rest else (k, v) :: updateSym rest sym f

/-- The fresh `RouterState()` built at the top of `run_runtime` and
`run_replay`. -/
def initialRouterState : RouterState :=
  { symbols := [],
    system := { listener_alive := false, last_listener_event_ts := none,
                violation_active := false, last_violation_ts := none } }

/-- The payload fields `update_from_event` and the runtime loop consult.
`none` models a missing key or a value that is not a string (the code
guards every read with `isinstance(_, str)`). -/
structure EventPayload where
  symbol : Option String
  regime : Option String
  «to» : Option String
deriving DecidableEq, Repr

/-- A spine event as consumed by the router.  `payload = none` models a
missing or non-dict payload. -/
structure Event where
  event_type : Option String
  event_id : Option String
  timestamp : Option String
  payload : Option EventPayload
deriving DecidableEq, Repr

/-- Source `RouterState.update_from_event`: the per-event state update.  Note
that the `invariant.violation` arm sets `violation_active` and
`last_violation_ts` unconditionally — the source at
`src/router/state.py:61-63` performs no epoch comparison. -/
def update_from_event (s : RouterState) (e : Event) : RouterState :=
  match e.event_type, e.payload with
  | some event_type, some payload =>
    if event_type = "listener.start" then
      { s with system := { s.system with
          listener_alive := true, last_listener_event_ts := e.timestamp } }
    else if event_type = "listener.crash" then
      { s with system := { s.system with
          listener_alive := false, last_listener_event_ts := e.timestamp } }
    else if event_type = "invariant.violation" then
      { s with system := { s.system with
          violation_active := true, last_violation_ts := e.timestamp } }
    else if event_type = "market.regime" then
      match payload.symbol, payload.regime with
      | some symbol, some regime =>
          { s with symbols := updateSym s.symbols symbol fun st =>
              { st with regime := some regime, last_regime_ts := e.timestamp } }
      | _, _ => s
    else if event_type = "market.regime_change" then
      match payload.symbol, payload.«to» with
      | some symbol, some to_regime =>
          { s with symbols := updateSym s.symbols symbol fun st =>
              { st with regime := some to_regime, last_regime_ts := e.timestamp } }
      | _, _ => s
    else s
  | _, _ => s

/-- Source `RouterState.get_last_veto_reason`. -/
def get_last_veto_reason (s : RouterState) (symbol : String) : Option String :=
  (lookupSym s.symbols symbol).bind (·.last_veto_reason)

/-- Source `RouterState.set_last_veto_reason`: records the veto and clears the
intent/allocation slots (XOR discipline). -/
def set_last_veto_reason (s : RouterState) (symbol veto_reason : String) : RouterState :=
  { s with symbols := updateSym s.symbols symbol fun st =>
      { st with last_veto_reason := some veto_reason,
                last_intent := none, last_allocation := none } }

/-- Source `RouterState.get_last_allocation`. -/
def get_last_allocation (s : RouterState) (symbol : String) : Option AllocationResult :=
  (lookupSym s.symbols symbol).bind (·.last_allocation)

/-- Source `RouterState.set_last_allocation`: records the allocation and clears
the veto/legacy-intent slots (XOR discipline). -/
def set_last_allocation (s : RouterState) (symbol : String) (a : AllocationResult) :
    RouterState :=
  { s with symbols := updateSym s.symbols symbol fun st =>
      { st with last_allocation := some a,
                last_intent := none, last_veto_reason := none } }

/-! ## Bridge from state to allocator (src/router/allocator.py) -/

/-- The flat zero `AllocationResult` each veto branch of
`compute_allocation_from_state` constructs, parametrized by its rationale
string (the only field in which those branches differ). -/
def vetoAllocation (rationale : String) : AllocationResult :=
  { direction := .flat, size_pct_q := 0, size_pct_scale := SIZE_PCT_SCALE,
    risk_cap := .zero, rationale := [rationale], base_allocation_q := 0,
    entropy_factor := 0, uncertainty_discount := 1, final_factor := 0 }

/-- Source `compute_allocation_from_state(state_dict, symbol)`: the bridge between
router state and the allocator.  Checks veto conditions in source order —
listener down, active violation, missing regime (a missing key or an empty
string, both falsy in Python), chop, high_vol — and otherwise calls the
allocator with the default entropy. -/
def compute_allocation_from_state (state : RouterState) (symbol : String) :
    AllocationResult × Option String :=
  let symbol_state := (lookupSym state.symbols symbol).getD emptySymbolState
  if state.system.listener_alive = false then
    (vetoAllocation "veto: input_unavailable", some "input_unavailable")
  else if state.system.violation_active then
    (vetoAllocation "veto: violation_active", some "violation_active")
  else if symbol_state.regime = none ∨ symbol_state.regime = some "" then
    (vetoAllocation "veto: regime_unresolved", some "regime_unresolved")
  else if infer_regime symbol_state.regime = .chop then
    (vetoAllocation "veto: regime=chop", some "regime_chop")
  else if infer_regime symbol_state.regime = .high_vol then
    (vetoAllocation "veto: regime=high_vol", some "regime_high_vol")
  else
    (allocate (infer_regime symbol_state.regime) default_entropy SIZE_PCT_SCALE, none)

/-! ## Constraint layer (src/router/constraints.py) -/

/-- Source `VetoReason` enum: the frozen, exhaustive veto taxonomy of
`src/router/constraints.py`. -/
inductive VetoReason where
  | invariant_violation
  | input_unavailable
  | authority_gate
  | regime_unresolved
  | no_edge
  | regime_volatile
deriving DecidableEq, Repr

/-- The `.value` string of a `VetoReason` member. -/
def VetoReason.value : VetoReason → String
  | .invariant_violation => "invariant_violation"
  | .input_unavailable => "input_unavailable"
  | .authority_gate => "authority_gate"
  | .regime_unresolved => "regime_unresolved"
  | .no_edge => "no_edge"
  | .regime_volatile => "regime_volatile"

/-- Source `_VETO_REASON_MAP`: allocator veto tags to constitutional
`VetoReason` members. -/
def VETO_REASON_MAP (tag : String) : Option VetoReason :=
  if tag = "input_unavailable" then some .input_unavailable
  else if tag = "violation_active" then some .invariant_violation
  else if tag = "regime_unresolved" then some .regime_unresolved
  else if tag = "regime_chop" then some .no_edge
  else if tag = "regime_high_vol" then some .regime_volatile
  else none

/-- Source `_validate_allocation_surface`: v0.2 surface invariants; `none` means
valid, otherwise the error description. -/
def validate_allocation_surface (a : AllocationResult) : Option String :=
  if a.direction ≠ .flat ∧ a.size_pct_q = 0 then some "zero_size_non_flat"
  else if ¬ (a.risk_cap = .zero ∨ a.risk_cap = .low ∨ a.risk_cap = .medium) then
    some ("invalid_risk_cap:" ++ a.risk_cap.value)
  else if a.size_pct_scale ≠ SIZE_PCT_SCALE then
    some ("invalid_scale:" ++ toString a.size_pct_scale)
  else if a.rationale = [] then some "empty_rationale"
  else none

/-- The tagged constraint output: an allocation or a typed veto. -/
inductive ConstraintResult where
  | alloc (a : AllocationResult)
  | veto (v : VetoReason)
deriving DecidableEq, Repr

/-- The body of `evaluate_constraints` after the call to
`compute_allocation_from_state`: map a veto tag through the constitutional
map (defaulting to `regime_unresolved`), turn flat allocations into
`regime_unresolved` vetoes, apply the surface validation, and otherwise
return the allocation. -/
def evaluate_post (pair : AllocationResult × Option String) : ConstraintResult :=
  match pair.2 with
  | some tag => .veto ((VETO_REASON_MAP tag).getD .regime_unresolved)
  | none =>
    if pair.1.direction = .flat then .veto .regime_unresolved
    else match validate_allocation_surface pair.1 with
      | some _ => .veto .regime_unresolved
      | none => .alloc pair.1

/-- Source `evaluate_constraints(state_dict, symbol)`: allocation or veto,
never both, never a flat intent. -/
def evaluate_constraints (state : RouterState) (symbol : String) : ConstraintResult :=
  evaluate_post (compute_allocation_from_state state symbol)

/-- Source `should_emit_intent(current, last)`: deduplication on
`(direction, size_pct_q, risk_cap)`; rationale is ignored. -/
def should_emit_intent (current : AllocationResult) (last : Option AllocationResult) :
    Bool :=
  match last with
  | none => true
  | some l =>
      current.direction ≠ l.direction ∨ current.size_pct_q ≠ l.size_pct_q ∨
        current.risk_cap ≠ l.risk_cap

/-! ## Mock envelope (src/router/envelope.py) -/

/-- Source `Envelope`: deterministic uncertainty envelope attached to emissions. -/
structure Envelope where
  p_flat : ℚ
  p_long : ℚ
  p_short : ℚ
  p_vetoed : ℚ
  size_min : ℚ
  size_max : ℚ
  kernel : String
  version : String
deriving DecidableEq, Repr

/-- Source `_clamp01`. -/
def clamp01 (x : ℚ) : ℚ :=
  if x < 0 then 0 else if x > 1 then 1 else x

/-- Source `make_mock_envelope(intent_side, confidence, vetoed, size)`: the
deterministic closed-form envelope.  The veto branch collapses to
`(0,0,0,1)` with a zero size band; otherwise the confidence allocates
`p_flat` versus the directed mass and the band widens with
uncertainty. -/
def make_mock_envelope (intent_side : String) (confidence : ℚ) (vetoed : Bool)
    (size : ℚ) : Envelope :=
  let c := clamp01 confidence
  if vetoed then
    { p_flat := 0, p_long := 0, p_short := 0, p_vetoed := 1,
      size_min := 0, size_max := 0, kernel := "mock_v0", version := "0.0.1" }
  else
    let p_flat := clamp01 (13/20 - 1/2 * c)
    let p_dir := clamp01 (1 - p_flat)
    let side := pyUpper intent_side
    let dirs :=
      if side = "LONG" then (p_flat, p_dir, (0 : ℚ))
      else if side = "SHORT" then (p_flat, (0 : ℚ), p_dir)
      else ((1 : ℚ), (0 : ℚ), (0 : ℚ))
    let s := |size|
    let band := 1/5 + 3/5 * (1 - c)
    { p_flat := clamp01 dirs.1, p_long := clamp01 dirs.2.1, p_short := clamp01 dirs.2.2,
      p_vetoed := 0, size_min := max 0 (s * (1 - band)), size_max := s * (1 + band),
      kernel := "mock_v0", version := "0.0.1" }

/-! ## Schema validator (src/schemas/router_intent.py) -/

/-- The `DIRECTIONS` set: no flat intent. -/
def DIRECTIONS : List String := ["long", "short"]

/-- The v0.2 risk caps `RISK_CAPS_V02`. -/
def RISK_CAPS_V02 : List String := ["zero", "low", "medium"]

/-- The legacy risk caps `RISK_CAPS_LEGACY`. -/
def RISK_CAPS_LEGACY : List String := ["low", "normal", "high"]

/-- The validator's `VETO_REASONS` set, exactly as written in
`src/schemas/router_intent.py:21-26`: four members. -/
def VETO_REASONS : List String :=
  ["invariant_violation", "input_unavailable", "regime_unresolved", "authority_gate"]

/-- Modelled from the spec: the closed six-element `VetoReason` set the
specification declares (missing from the validator under `src/schemas/`,
present as the `VetoReason` enum in `src/router/constraints.py`). -/
def SPEC_VETO_REASONS : List String :=
  ["invariant_violation", "input_unavailable", "authority_gate",
   "regime_unresolved", "no_edge", "regime_volatile"]

/-- An intent payload as seen by `validate_router_intent`.  `none` models
an absent key; field types follow the values the emitter constructs
(`size_pct_q`/`size_pct_scale` integers, `size_pct` a float). -/
structure IntentPayloadDict where
  direction : Option String
  size_pct_q : Option ℤ
  size_pct_scale : Option ℤ
  size_pct : Option ℚ
  risk_cap : Option String
  rationale : Option (List String)
deriving DecidableEq, Repr

/-- Source `validate_router_intent(payload)`: raises `ValueError` (here:
`Except.error`) on the first violated rule, in source order.  Rationals
are always finite, so the `math.isfinite` guard of the legacy branch
reduces to the sign check. -/
def validate_router_intent (p : IntentPayloadDict) : Except String Unit :=
  match p.direction with
  | none => .error "invalid direction"
  | some direction =>
    if direction ∉ DIRECTIONS then .error "invalid direction"
    else
      let has_q := p.size_pct_q.isSome
      let has_scale := p.size_pct_scale.isSome
      let has_legacy := p.size_pct.isSome
      if has_legacy ∧ (has_q ∨ has_scale) then .error "mixed format"
      else if has_q ∨ has_scale then
        match p.size_pct_q with
        | none => .error "v0.2 format requires size_pct_q"
        | some size_pct_q =>
          match p.size_pct_scale with
          | none => .error "v0.2 format requires size_pct_scale"
          | some size_pct_scale =>
            if size_pct_q < 0 then .error "size_pct_q must be non-negative integer"
            else if size_pct_scale ≠ SIZE_PCT_SCALE then .error "size_pct_scale invalid"
            else if (p.risk_cap.getD "") ∉ RISK_CAPS_V02 ∨ p.risk_cap = none then
              .error "v0.2 risk_cap invalid"
            else if size_pct_q = 0 ∧ direction ∈ DIRECTIONS then
              .error "v0.2: size_pct_q=0 with non-flat direction is invalid"
            else validateRationale p.rationale
      else
        match p.size_pct with
        | none => .error "legacy format requires size_pct"
        | some size_pct =>
          if size_pct < 0 then .error "size_pct must be finite and non-negative"
          else if (p.risk_cap.getD "") ∉ RISK_CAPS_LEGACY ∨ p.risk_cap = none then
            .error "legacy risk_cap invalid"
          else validateRationale p.rationale
where
  /-- The trailing rationale checks shared by both format branches. -/
  validateRationale : Option (List String) → Except String Unit
    | none => .error "rationale must be list of strings"
    | some r => if r = [] then .error "rationale must not be empty" else .ok ()

/-- A veto payload as seen by `validate_router_veto`.  `none` models an
absent key or a non-string value; both fail its `isinstance`-style
membership checks identically. -/
structure VetoPayloadDict where
  symbol : Option String
  veto_reason : Option String
deriving DecidableEq, Repr

/-- Source `validate_router_veto(payload)`: symbol must be a non-empty string,
`veto_reason` must be a member of the validator's `VETO_REASONS` set. -/
def validate_router_veto (p : VetoPayloadDict) : Except String Unit :=
  match p.symbol with
  | none => .error "symbol invalid"
  | some symbol =>
    if symbol = "" then .error "symbol invalid"
    else
      match p.veto_reason with
      | none => .error "invalid veto_reason"
      | some veto_reason =>
        if veto_reason ∈ VETO_REASONS then .ok () else .error "invalid veto_reason"

/-! ## Emitter (src/router/emit.py) -/

/-- The payload of an emitted `router.intent` record. -/
structure IntentPayloadFull where
  symbol : String
  direction : String
  size_pct_q : ℤ
  size_pct_scale : ℤ
  risk_cap : String
  rationale : List String
  envelope : Envelope
deriving DecidableEq, Repr

/-- The payload of an emitted `router.veto` record.  `emit_veto` attaches
an envelope and no `surface_invalid` key; `_emit_surface_veto` attaches a
`surface_invalid` audit tag and no envelope. -/
structure VetoPayloadFull where
  symbol : String
  veto_reason : String
  envelope : Option Envelope
  surface_invalid : Option String
deriving DecidableEq, Repr

/-- The payload of a record appended to the spine by the emitter. -/
inductive RecordPayload where
  | intentP (p : IntentPayloadFull)
  | vetoP (p : VetoPayloadFull)
deriving DecidableEq, Repr

/-- A record appended to the spine by `emit_intent` / `emit_veto`. -/
structure SpineRecord where
  event_type : String
  payload : RecordPayload
  source_event_id : String
  source_ts : String
deriving DecidableEq, Repr

/-- Source `_write_event`: append one record to the spine.  `writeOk` models
whether the OS append succeeds; on `OSError` nothing is appended and
`False` is returned. -/
def write_event (writeOk : Bool) (rec : SpineRecord) : List SpineRecord × Bool :=
  if writeOk then ([rec], true) else ([], false)

/-- Source `_emit_surface_veto`: the fail-closed path taken when an intent fails
schema validation.  Its payload carries `surface_invalid` **and no
envelope** (`src/router/emit.py:63-67`). -/
def emit_surface_veto (writeOk : Bool) (symbol validation_error
    source_event_id source_ts : String) : List SpineRecord :=
  let payload : VetoPayloadFull :=
    { symbol := symbol, veto_reason := "regime_unresolved",
      envelope := none, surface_invalid := some validation_error }
  (write_event writeOk
    { event_type := "router.veto", payload := .vetoP payload,
      source_event_id := source_event_id, source_ts := source_ts }).1

/-- The intent payload `emit_intent` builds from an allocation, envelope
included. -/
def intentPayloadOf (symbol : String) (a : AllocationResult) : IntentPayloadFull :=
  { symbol := symbol, direction := a.direction.value, size_pct_q := a.size_pct_q,
    size_pct_scale := a.size_pct_scale, risk_cap := a.risk_cap.value,
    rationale := a.rationale,
    envelope := make_mock_envelope a.direction.value a.entropy_factor false
      ((a.size_pct_q : ℚ) / (a.size_pct_scale : ℚ)) }

/-- The view of an emitted intent payload the schema validator receives:
every v0.2 field is present, the legacy `size_pct` key is absent. -/
def intentDictOf (p : IntentPayloadFull) : IntentPayloadDict :=
  { direction := some p.direction, size_pct_q := some p.size_pct_q,
    size_pct_scale := some p.size_pct_scale, size_pct := none,
    risk_cap := some p.risk_cap, rationale := some p.rationale }

/-- Source `emit_intent`: validate at the emission boundary; on success append the
intent record, on validation failure append a surface veto instead (fail
closed); return `(success, error)` as in the source. -/
def emit_intent (writeOk : Bool) (symbol : String) (a : AllocationResult)
    (source_event_id source_ts : String) :
    List SpineRecord × (Bool × Option String) :=
  let payload := intentPayloadOf symbol a
  match validate_router_intent (intentDictOf payload) with
  | .error e =>
      (emit_surface_veto writeOk symbol e source_event_id source_ts,
        (false, some ("surface_invalid: " ++ e)))
  | .ok _ =>
      let (recs, ok) := write_event writeOk
        { event_type := "router.intent", payload := .intentP payload,
          source_event_id := source_event_id, source_ts := source_ts }
      (recs, if ok then (true, none) else (false, some "write_failed"))

/-- Source `emit_veto`: append a typed-silence record carrying the collapsed veto
envelope (`make_mock_envelope("FLAT", 0.0, vetoed=True, 0.0)`). -/
def emit_veto (writeOk : Bool) (symbol : String) (v : VetoReason)
    (source_event_id source_ts : String) : List SpineRecord × Bool :=
  let payload : VetoPayloadFull :=
    { symbol := symbol, veto_reason := v.value,
      envelope := some (make_mock_envelope "FLAT" 0 true 0),
      surface_invalid := none }
  write_event writeOk
    { event_type := "router.veto", payload := .vetoP payload,
      source_event_id := source_event_id, source_ts := source_ts }

/-! ## Per-symbol loop body (src/router/main.py)

`run_runtime` (lines 301-356) and `run_replay` (lines 410-460) share a
line-for-line identical per-symbol body; `processSymbol` embeds it once.
`can_emit_non_flat` is the authority gate predicate of the session and
`writeOk` models the success of the underlying spine append. -/

/-- One iteration of the `for symbol in symbols_to_check` loop: evaluate
constraints, then take exactly one of the veto / authority-gate /
intent paths, updating the per-symbol deduplication slot after the
emission attempt (the emit return value is ignored, as in the source). -/
def processSymbol (can_emit_non_flat writeOk : Bool) (s : RouterState)
    (symbol event_id timestamp : String) : RouterState × List SpineRecord :=
  match evaluate_constraints s symbol with
  | .veto r =>
      if get_last_veto_reason s symbol ≠ some r.value then
        let recs := (emit_veto writeOk symbol r event_id timestamp).1
        (set_last_veto_reason s symbol r.value, recs)
      else (s, [])
  | .alloc a =>
      if a.direction ≠ .flat ∧ can_emit_non_flat = false then
        if get_last_veto_reason s symbol ≠ some VetoReason.authority_gate.value then
          let recs := (emit_veto writeOk symbol .authority_gate event_id timestamp).1
          (set_last_veto_reason s symbol VetoReason.authority_gate.value, recs)
        else (s, [])
      else
        if should_emit_intent a (get_last_allocation s symbol) then
          let recs := (emit_intent writeOk symbol a event_id timestamp).1
          (set_last_allocation s symbol a, recs)
        else (s, [])

/-! ## Authority (src/router/authority.py) -/

/-- Source `AuthorityLevel` enum. -/
inductive AuthorityLevel where
  | v0_1
  | v0_2
  | v0_3
  | v1_0
deriving DecidableEq, Repr

/-- Source `str(level)`. -/
def AuthorityLevel.str : AuthorityLevel → String
  | .v0_1 => "v0.1"
  | .v0_2 => "v0.2"
  | .v0_3 => "v0.3"
  | .v1_0 => "v1.0"

/-- Position in the total order `v0.1 < v0.2 < v0.3 < v1.0`. -/
def AuthorityLevel.idx : AuthorityLevel → Nat
  | .v0_1 => 0
  | .v0_2 => 1
  | .v0_3 => 2
  | .v1_0 => 3

/-- Source `AuthorityLevel.can_emit_non_flat`: true from v0.2 up. -/
def AuthorityLevel.can_emit_non_flat (l : AuthorityLevel) : Bool :=
  AuthorityLevel.v0_2.idx ≤ l.idx

/-- Source `DemotionEvent` record. -/
structure DemotionEvent where
  timestamp : String
  from_level : AuthorityLevel
  to_level : AuthorityLevel
  trigger : String
  details : Option String
deriving DecidableEq, Repr

/-- Source `AuthorityState`: runtime authority state. -/
structure AuthorityState where
  level : AuthorityLevel
  cert_path : Option String
  cert_body_sha256 : Option String
  build_meta_sha256 : Option String
  promoted_at : Option String
  demotions : List DemotionEvent
  started_at : String
deriving DecidableEq, Repr

/-- Source `AuthorityState.demote`: drop to v0.1 and record the event, a no-op at
v0.1.  `now` stands for the `datetime.now(timezone.utc)` read the source
performs when building the `DemotionEvent`. -/
def AuthorityState.demote (s : AuthorityState) (now trigger : String)
    (details : Option String) : AuthorityState :=
  if s.level = .v0_1 then s
  else
    { s with
        demotions := s.demotions ++
          [{ timestamp := now, from_level := s.level, to_level := .v0_1,
             trigger := trigger, details := details }],
        level := .v0_1 }

/-- Source `create_violation_active_check`, evaluated at the current
`violation_active` flag. -/
def create_violation_active_check (violation_active : Bool) : Option String :=
  if violation_active then some "violation_active_true" else none

/-- Source `create_build_meta_check`, evaluated at the current build hash. -/
def create_build_meta_check (cert_build_meta_sha256 current : String) :
    Option String :=
  if current ≠ cert_build_meta_sha256 then
    some ("build_meta_mismatch (cert=" ++ pyTake cert_build_meta_sha256 8 ++
      "..., current=" ++ pyTake current 8 ++ "...)")
  else none

/-- Source `DemotionWatcher.check_all`: at v0.1 do nothing; otherwise demote on
the first check that returns a trigger. -/
def check_all (checks : List (Option String)) (s : AuthorityState) (now : String) :
    AuthorityState :=
  if s.level = .v0_1 then s
  else
    match checks.findSome? id with
    | some trigger => s.demote now trigger none
    | none => s

/-- The check list installed by `AuthorityGatedRouter.__init__`
(`src/router/main.py:210-214`): only the violation check.  No build-meta
check is ever added. -/
def gatedRouterChecks (violation_active : Bool) : List (Option String) :=
  [create_violation_active_check violation_active]

/-- The payload of a `router.authority_demotion` record. -/
structure DemotionRecordPayload where
  from_level : String
  to_level : String
  trigger : String
  cert_body_sha256 : Option String
  build_meta_sha256 : Option String
  details : Option String
deriving DecidableEq, Repr

/-- A `router.authority_demotion` record as written to the spine.  Its
`timestamp` is `datetime.now(timezone.utc).isoformat()` — a wall-clock
read, embedded as the `now` parameter. -/
structure DemotionRecord where
  event_type : String
  timestamp : String
  payload : DemotionRecordPayload
deriving DecidableEq, Repr

/-- Source `emit_demotion_event` (spine side; in replay mode the sidecar path is
`None`, so only the spine record exists). -/
def emit_demotion_event (now : String) (from_level to_level : AuthorityLevel)
    (trigger : String) (cert_body_sha256 build_meta_sha256 : Option String)
    (details : Option String) : DemotionRecord :=
  { event_type := "router.authority_demotion", timestamp := now,
    payload := { from_level := from_level.str, to_level := to_level.str,
                 trigger := trigger, cert_body_sha256 := cert_body_sha256,
                 build_meta_sha256 := build_meta_sha256, details := details } }

/-- Source `AuthorityGatedRouter` state: authority plus the
`_demotion_emitted` latch. -/
structure GatedRouter where
  authority : AuthorityState
  demotion_emitted : Bool
deriving DecidableEq, Repr

/-- Source `AuthorityGatedRouter.check_demotion`: run the installed checks (the
violation check only), and if the level dropped and no demotion record
was emitted yet this session, write the durable
`router.authority_demotion` record stamped with the wall clock. -/
def check_demotion (g : GatedRouter) (violation_active : Bool) (now : String)
    (writeOk : Bool) : GatedRouter × List DemotionRecord :=
  let old_level := g.authority.level
  let auth := check_all (gatedRouterChecks violation_active) g.authority now
  if old_level ≠ auth.level ∧ g.demotion_emitted = false then
    match auth.demotions.getLast? with
    | some latest =>
        let record := emit_demotion_event now latest.from_level latest.to_level
          latest.trigger auth.cert_body_sha256 auth.build_meta_sha256 latest.details
        ({ authority := auth, demotion_emitted := true },
          if writeOk then [record] else [])
    | none => ({ authority := auth, demotion_emitted := g.demotion_emitted }, [])
  else ({ authority := auth, demotion_emitted := g.demotion_emitted }, [])

/-! ## Authority binding (src/router/authority.py) -/

/-- A parsed promotion certificate.  Field values are `Option`s standing
for `cert.get(...)`. -/
structure Certificate where
  cert_version : Option String
  build_meta_sha256 : Option String
  promoted_at : Option String
  cert_sig : Option String
  cert_sha256 : Option String
deriving DecidableEq, Repr

/-- The current build metadata; only `combined_sha256` is consulted by
authority binding. -/
structure BuildMeta where
  combined_sha256 : Option String
deriving DecidableEq, Repr

/-- Source `verify_certificate_integrity`: require the Ed25519 signature when
present (`sigVerify` stands for `verify_certificate_signature`, which is
not representable in the embedding); reject unsigned certificates unless
`allow_legacy`, in which case compare the deprecated self-hash (`selfHash`
stands for the canonical SHA-256 of the certificate body). -/
def verify_certificate_integrity (sigVerify : Certificate → Bool)
    (selfHash : Certificate → String) (cert : Certificate) (allow_legacy : Bool) :
    Bool :=
  match cert.cert_sig with
  | some _ => sigVerify cert
  | none =>
    if allow_legacy = false then false
    else
      match cert.cert_sha256 with
      | none => false
      | some stored =>
        if stored = "" then false
        else if selfHash cert = stored then true else false

/-- Source `verify_build_meta_match`: both hashes must be present, non-empty and
equal. -/
def verify_build_meta_match (cert : Certificate) (current : BuildMeta) : Bool :=
  match cert.build_meta_sha256, current.combined_sha256 with
  | some cert_hash, some current_hash =>
    if cert_hash = "" ∨ current_hash = "" then false
    else if cert_hash = current_hash then true else false
  | _, _ => false

/-- Source `bind_authority(cert_path, current_build_meta, allow_legacy_cert)`:
fail closed to v0.1 on a missing path, a load/parse failure, a version
other than v0.2, a failed integrity check, or a build-meta mismatch (or a
missing current build meta); on success promote to v0.2 recording the
certificate body hash (`bodyHash` stands for `compute_cert_body_sha256`),
the certificate's build hash and `promoted_at`. -/
def bind_authority (sigVerify : Certificate → Bool)
    (selfHash bodyHash : Certificate → String) (cert_path : Option String)
    (loadResult : Except String Certificate) (current_build_meta : Option BuildMeta)
    (allow_legacy_cert : Bool) (started_at : String) : AuthorityState :=
  let state : AuthorityState :=
    { level := .v0_1, cert_path := none, cert_body_sha256 := none,
      build_meta_sha256 := none, promoted_at := none, demotions := [],
      started_at := started_at }
  match cert_path with
  | none => state
  | some path =>
    match loadResult with
    | .error _ => state
    | .ok cert =>
      if cert.cert_version ≠ some "v0.2" then state
      else if verify_certificate_integrity sigVerify selfHash cert allow_legacy_cert
          = false then state
      else
        match current_build_meta with
        | some bm =>
          if verify_build_meta_match cert bm = false then state
          else
            { state with level := .v0_2, cert_path := some path,
                         cert_body_sha256 := some (bodyHash cert),
                         build_meta_sha256 := cert.build_meta_sha256,
                         promoted_at := cert.promoted_at }
        | none => state

/-! ## Helper lemmas -/

/-- Constraint output is an allocation only when the bridge returned no
veto tag and the allocation is non-flat and surface-valid. -/
theorem evaluate_post_alloc {pair : AllocationResult × Option String}
    {a : AllocationResult} (h : evaluate_post pair = .alloc a) :
    a = pair.1 ∧ pair.1.direction ≠ .flat := by
  unfold evaluate_post at h
  cases hp : pair.2 with
  | some tag => rw [hp] at h; simp at h
  | none =>
    rw [hp] at h
    by_cases hf : pair.1.direction = .flat
    · simp [hf] at h
    · simp [hf] at h
      cases hv : validate_allocation_surface pair.1 with
      | some e => rw [hv] at h; simp at h
      | none => rw [hv] at h; simp at h; exact ⟨h.symm, hf⟩

/-- A non-flat direction is long or short. -/
theorem direction_nonflat {d : Direction} (h : d ≠ .flat) :
    d = .long ∨ d = .short := by
  cases d
  · exact absurd rfl h
  · exact Or.inl rfl
  · exact Or.inr rfl

/-- Boolean check used by C6: a spine record is either not an intent or a
non-flat intent. -/
def intentRecordNonFlat (r : SpineRecord) : Bool :=
  if r.event_type = "router.intent" then
    match r.payload with
    | .intentP p => p.direction = "long" ∨ p.direction = "short"
    | .vetoP _ => false
  else true

/-- One call to `emit_veto` appends at most one record, never an intent. -/
theorem emit_veto_records_ok (writeOk : Bool) (symbol : String) (v : VetoReason)
    (eid ts : String) :
    (emit_veto writeOk symbol v eid ts).1.length ≤ 1
    ∧ (emit_veto writeOk symbol v eid ts).1.all intentRecordNonFlat = true := by
  cases writeOk <;> simp [emit_veto, write_event, intentRecordNonFlat]

/-- One call to `emit_intent` appends at most one record, and an appended
intent record carries the allocation direction, which is long or short. -/
theorem emit_intent_records_ok (writeOk : Bool) (symbol : String) (a : AllocationResult)
    (eid ts : String) (h : a.direction = .long ∨ a.direction = .short) :
    (emit_intent writeOk symbol a eid ts).1.length ≤ 1
    ∧ (emit_intent writeOk symbol a eid ts).1.all intentRecordNonFlat = true := by
  unfold emit_intent
  dsimp only
  cases hv : validate_router_intent (intentDictOf (intentPayloadOf symbol a)) with
  | error e =>
    cases writeOk <;> simp [emit_surface_veto, write_event, intentRecordNonFlat]
  | ok u =>
    cases writeOk
    · simp [write_event, intentRecordNonFlat, intentPayloadOf]
    · simp only [write_event, List.all_cons, List.all_nil, List.length_singleton,
        Bool.and_true, le_refl, true_and]
      rcases h with h | h <;> simp [intentRecordNonFlat, intentPayloadOf, h, Direction.value]

/-- Looking a symbol up after a dictionary update returns the updated
sub-dictionary. -/
theorem lookup_updateSym (xs : List (String × SymbolState)) (sym : String)
    (f : SymbolState → SymbolState) :
    lookupSym (updateSym xs sym f) sym
      = some (f ((lookupSym xs sym).getD emptySymbolState)) := by
  induction xs with
  | nil => simp [updateSym, lookupSym]
  | cons kv rest ih =>
    obtain ⟨k, v⟩ := kv
    by_cases hk : k = sym
    · simp [updateSym, lookupSym, hk]
    · simp [updateSym, lookupSym, hk, ih]

/-- The bridge reads only the system flags and the symbol's regime, so
recording a veto in the dedup slot does not change its result. -/
theorem compute_set_veto (s : RouterState) (sym r : String) :
    compute_allocation_from_state (set_last_veto_reason s sym r) sym
      = compute_allocation_from_state s sym := by
  unfold compute_allocation_from_state set_last_veto_reason
  simp [lookup_updateSym]

/-- The bridge reads only the system flags and the symbol's regime, so
recording an allocation in the dedup slot does not change its result. -/
theorem compute_set_alloc (s : RouterState) (sym : String) (a : AllocationResult) :
    compute_allocation_from_state (set_last_allocation s sym a) sym
      = compute_allocation_from_state s sym := by
  unfold compute_allocation_from_state set_last_allocation
  simp [lookup_updateSym]

/-- Constraint evaluation is unchanged by recording a veto. -/
theorem eval_set_veto (s : RouterState) (sym r : String) :
    evaluate_constraints (set_last_veto_reason s sym r) sym
      = evaluate_constraints s sym := by
  unfold evaluate_constraints
  rw [compute_set_veto]

/-- Constraint evaluation is unchanged by recording an allocation. -/
theorem eval_set_alloc (s : RouterState) (sym : String) (a : AllocationResult) :
    evaluate_constraints (set_last_allocation s sym a) sym
      = evaluate_constraints s sym := by
  unfold evaluate_constraints
  rw [compute_set_alloc]

/-- Reading the veto dedup slot right after writing it. -/
theorem get_last_veto_reason_set (s : RouterState) (sym r : String) :
    get_last_veto_reason (set_last_veto_reason s sym r) sym = some r := by
  unfold get_last_veto_reason set_last_veto_reason
  simp [lookup_updateSym]

/-- Reading the allocation dedup slot right after writing it. -/
theorem get_last_allocation_set (s : RouterState) (sym : String) (a : AllocationResult) :
    get_last_allocation (set_last_allocation s sym a) sym = some a := by
  unfold get_last_allocation set_last_allocation
  simp [lookup_updateSym]

/-- An allocation never differs from itself in the dedup triple. -/
theorem should_emit_intent_self (a : AllocationResult) :
    should_emit_intent a (some a) = false := by
  simp [should_emit_intent]

/-- When the spine append fails, `emit_intent` appends nothing. -/
theorem emit_intent_no_write (sym : String) (a : AllocationResult) (e t : String) :
    (emit_intent false sym a e t).1 = [] := by
  unfold emit_intent
  dsimp only
  cases validate_router_intent (intentDictOf (intentPayloadOf sym a)) <;>
    simp [emit_surface_veto, write_event]

/-! ## Claim theorems -/

/-- The pre-epoch violation event of the repository's own test suite
(`src/tests/test_epoch_scoped_violations.py`); its timestamp is
lexicographically smaller than the epoch `2026-01-10T00:00:00+00:00`
those tests bind. -/
def preEpochViolationEvent : Event :=
  { event_type := some "invariant.violation", event_id := some "test-violation-id",
    timestamp := some "2025-12-21T00:46:16.601321+00:00",
    payload := some { symbol := none, regime := none, «to» := none } }

/-- C1: the claim says `update_from_event` sets `violation_active` only
when the state's `authority_epoch_ts` is absent or the event timestamp is
lexicographically at or after it, and that a pre-epoch violation leaves
`violation_active` and `last_violation_ts` unchanged.  The shipped
`RouterState` has no `authority_epoch_ts` at all and its
`invariant.violation` arm is unconditional, so the pre-epoch violation of
the repository's own test suite flips `violation_active` to `true` and
records its timestamp — the tests (which construct
`RouterState(authority_epoch_ts=...)`) cannot even run against this
constructor.  This theorem evaluates the embedded code at that failing
input. -/
theorem C1_pre_epoch_violation_sets_flag :
    (update_from_event initialRouterState preEpochViolationEvent).system.violation_active
      = true
    ∧ (update_from_event initialRouterState preEpochViolationEvent).system.last_violation_ts
      = some "2025-12-21T00:46:16.601321+00:00" := by
  constructor <;> decide

/-- A v0.2-bound session for the demotion-watcher claims: certificate
build hash recorded, no demotions yet, no demotion record emitted yet. -/
def c2GatedRouter : GatedRouter :=
  { authority :=
      { level := .v0_2, cert_path := some "PROMOTION_CERT_v0_2.json",
        cert_body_sha256 := some "certbodyhash", build_meta_sha256 := some "certbuildhash",
        promoted_at := some "2026-01-10T00:00:00+00:00", demotions := [],
        started_at := "2026-01-10T00:00:01+00:00" },
    demotion_emitted := false }

/-- C2: the claim says the demotion watcher runs a `build_meta_mismatch`
check after every event, so the router never stays above v0.1 while the
observable build-meta hash differs from the certificate's.
`AuthorityGatedRouter.__init__` installs only the violation check;
`create_build_meta_check` exists but is never registered.  Here the
current build hash differs from the certificate's (the check would fire,
third conjunct), the violation flag is clear, and a post-event
`check_demotion` leaves the session at v0.2 with no demotion record —
the embedded code contradicts the claim. -/
theorem C2_build_meta_drift_does_not_demote :
    (check_demotion c2GatedRouter false "2026-01-10T00:00:02+00:00" true).1.authority.level
      = AuthorityLevel.v0_2
    ∧ (check_demotion c2GatedRouter false "2026-01-10T00:00:02+00:00" true).2 = []
    ∧ create_build_meta_check "certbuildhash" "driftedbuildhash" ≠ none := by
  refine ⟨?_, ?_, ?_⟩ <;> decide

/-- C3: the claim says two replay executions over the same input spine and
authority binding produce byte-identical output files.  The demotion
record `run_replay` appends to the output spine is stamped with
`datetime.now(timezone.utc)` — the `now` parameter here — so the same
demoting input (a v0.2 binding followed by an in-session violation)
yields different output records on two runs started at different
instants. -/
theorem C3_replay_demotion_record_depends_on_wall_clock :
    (check_demotion c2GatedRouter true "2026-01-10T00:00:02+00:00" true).2
    ≠ (check_demotion c2GatedRouter true "2026-01-10T00:00:03+00:00" true).2 := by
  decide

/-- The collapsed veto envelope `(0,0,0,1)` with a `[0,0]` size band. -/
def collapsedEnvelope : Envelope :=
  { p_flat := 0, p_long := 0, p_short := 0, p_vetoed := 1, size_min := 0, size_max := 0,
    kernel := "mock_v0", version := "0.0.1" }

/-- C4 counterexample: the claim says every emitted `router.veto`
payload — including the surface-invalid veto — contains an envelope with
`p_vetoed = 1`, the other probabilities `0` and size band `[0,0]`.  The
surface veto emitted by `_emit_surface_veto` carries no envelope at all:
its payload is `{symbol, veto_reason, surface_invalid}`. -/
theorem C4_surface_veto_has_no_envelope :
    emit_surface_veto true "BTC" "zero_size_non_flat" "evt-1" "2026-01-10T00:00:00+00:00"
    = [{ event_type := "router.veto",
         payload := .vetoP { symbol := "BTC", veto_reason := "regime_unresolved",
                             envelope := none,
                             surface_invalid := some "zero_size_non_flat" },
         source_event_id := "evt-1", source_ts := "2026-01-10T00:00:00+00:00" }] := rfl

/-- C4 (amended): every veto record written by `emit_veto` carries exactly
the collapsed envelope — `p_vetoed = 1`, all other probabilities `0`, and
size band `[0, 0]`; the surface-invalid veto, by contrast, carries no
envelope (see the counterexample). -/
theorem C4_emit_veto_envelope_collapses (writeOk : Bool) (symbol : String)
    (v : VetoReason) (source_event_id source_ts : String) :
    (emit_veto writeOk symbol v source_event_id source_ts).1
    = if writeOk then
        [{ event_type := "router.veto",
           payload := .vetoP { symbol := symbol, veto_reason := v.value,
                               envelope := some collapsedEnvelope,
                               surface_invalid := none },
           source_event_id := source_event_id, source_ts := source_ts }]
      else [] := by
  cases writeOk <;> rfl

/-- C5: the claim says `validate_router_veto` accepts exactly the
six-element constitutional set.  The validator's `VETO_REASONS` holds only
four members; `no_edge` and `regime_volatile` — members of the spec's
closed set and of the `VetoReason` enum the emitter actually emits — are
rejected with `ValueError("invalid veto_reason")`, while `authority_gate`
is accepted.  This theorem evaluates the embedded validator at those
failing inputs. -/
theorem C5_veto_validator_rejects_constitutional_reasons :
    VETO_REASONS = ["invariant_violation", "input_unavailable", "regime_unresolved",
      "authority_gate"]
    ∧ "no_edge" ∈ SPEC_VETO_REASONS
    ∧ "regime_volatile" ∈ SPEC_VETO_REASONS
    ∧ VetoReason.no_edge.value = "no_edge"
    ∧ VetoReason.regime_volatile.value = "regime_volatile"
    ∧ validate_router_veto { symbol := some "BTC", veto_reason := some "no_edge" }
        = .error "invalid veto_reason"
    ∧ validate_router_veto { symbol := some "BTC", veto_reason := some "regime_volatile" }
        = .error "invalid veto_reason"
    ∧ validate_router_veto { symbol := some "BTC", veto_reason := some "authority_gate" }
        = .ok () := by
  refine ⟨rfl, by decide, by decide, rfl, rfl, rfl, rfl, rfl⟩

/-- C6: for every processed event and affected symbol, the per-symbol loop
body emits at most one record (zero or one of intent / veto, never both),
and any `router.intent` record it emits has direction `long` or `short`,
never `flat`. -/
theorem C6_xor_emission_and_no_flat_intent (can_emit_non_flat writeOk : Bool)
    (s : RouterState) (symbol event_id timestamp : String) :
    (processSymbol can_emit_non_flat writeOk s symbol event_id timestamp).2.length ≤ 1
    ∧ (processSymbol can_emit_non_flat writeOk s symbol event_id timestamp).2.all
        intentRecordNonFlat = true := by
  cases hres : evaluate_constraints s symbol with
  | veto r =>
    simp only [processSymbol, hres]
    split
    · exact emit_veto_records_ok writeOk symbol r event_id timestamp
    · simp
  | alloc a =>
    have hd : a.direction = .long ∨ a.direction = .short :=
      direction_nonflat (by
        have := evaluate_post_alloc (hres : evaluate_post _ = .alloc a)
        rw [this.1]; exact this.2)
    simp only [processSymbol, hres]
    split
    · split
      · exact emit_veto_records_ok writeOk symbol .authority_gate event_id timestamp
      · simp
    · split
      · exact emit_intent_records_ok writeOk symbol a event_id timestamp hd
      · simp

/-- First match over an ordered list of (condition, tag) checks;
spec-side device for C7. -/
def firstMatching : List (Bool × String) → Option String
  | [] => none
  | (b, tag) :: rest => if b then some tag else firstMatching rest

/-- Modelled from the claim for C7: the ordered veto checks of the bridge —
listener down, violation active, regime unresolved, chop, high_vol. -/
def specVetoChecks (s : RouterState) (symbol : String) : List (Bool × String) :=
  let regime := ((lookupSym s.symbols symbol).getD emptySymbolState).regime
  [ (!s.system.listener_alive, "input_unavailable"),
    (s.system.violation_active, "violation_active"),
    (regime = none ∨ regime = some "", "regime_unresolved"),
    (infer_regime regime = .chop, "regime_chop"),
    (infer_regime regime = .high_vol, "regime_high_vol") ]

/-- The rationale string each veto tag produces in the bridge. -/
def vetoTagRationale (tag : String) : String :=
  if tag = "regime_chop" then "veto: regime=chop"
  else if tag = "regime_high_vol" then "veto: regime=high_vol"
  else "veto: " ++ tag

/-- C7: the bridge checks its veto conditions in exactly the claimed
order — returning the first matching tag and otherwise the allocator
output with default entropy and no tag — and `_VETO_REASON_MAP` (hence
`evaluate_constraints`) maps the five tags to `input_unavailable`,
`invariant_violation`, `regime_unresolved`, `no_edge` and
`regime_volatile` respectively. -/
theorem C7_bridge_check_order_and_veto_mapping (s : RouterState) (symbol : String) :
    (compute_allocation_from_state s symbol
      = match firstMatching (specVetoChecks s symbol) with
        | some tag => (vetoAllocation (vetoTagRationale tag), some tag)
        | none =>
            (allocate (infer_regime ((lookupSym s.symbols symbol).getD emptySymbolState).regime)
              default_entropy SIZE_PCT_SCALE, none))
    ∧ VETO_REASON_MAP "input_unavailable" = some VetoReason.input_unavailable
    ∧ VETO_REASON_MAP "violation_active" = some VetoReason.invariant_violation
    ∧ VETO_REASON_MAP "regime_unresolved" = some VetoReason.regime_unresolved
    ∧ VETO_REASON_MAP "regime_chop" = some VetoReason.no_edge
    ∧ VETO_REASON_MAP "regime_high_vol" = some VetoReason.regime_volatile
    ∧ (∀ al, evaluate_post (al, some "input_unavailable") = .veto .input_unavailable)
    ∧ (∀ al, evaluate_post (al, some "violation_active") = .veto .invariant_violation)
    ∧ (∀ al, evaluate_post (al, some "regime_unresolved") = .veto .regime_unresolved)
    ∧ (∀ al, evaluate_post (al, some "regime_chop") = .veto .no_edge)
    ∧ (∀ al, evaluate_post (al, some "regime_high_vol") = .veto .regime_volatile) := by
  refine ⟨?_, rfl, rfl, rfl, rfl, rfl, ?_, ?_, ?_, ?_, ?_⟩
  · unfold compute_allocation_from_state specVetoChecks
    by_cases h1 : s.system.listener_alive
    · by_cases h2 : s.system.violation_active
      · simp [h1, h2, firstMatching, vetoTagRationale]
      · by_cases h3 : ((lookupSym s.symbols symbol).getD emptySymbolState).regime = none
            ∨ ((lookupSym s.symbols symbol).getD emptySymbolState).regime = some ""
        · simp [h1, h2, h3, firstMatching, vetoTagRationale]
        · by_cases h4 : infer_regime ((lookupSym s.symbols symbol).getD emptySymbolState).regime = .chop
          · simp [h1, h2, h3, h4, firstMatching, vetoTagRationale]
          · by_cases h5 : infer_regime ((lookupSym s.symbols symbol).getD emptySymbolState).regime = .high_vol
            · simp [h1, h2, h3, h4, h5, firstMatching, vetoTagRationale]
            · simp [h1, h2, h3, h4, h5, firstMatching]
    · simp [h1, firstMatching, vetoTagRationale]
  all_goals intro al
  all_goals rfl

/-- C8: for regime `drift` with the default entropy `(0.5, 0, 0.3)` the
combined entropy factor is `0.5 * 1 * 0.7 = 0.35` and the allocation is
`long` with `size_pct_q = round(2500 * 0.35 * 0.8) = 700` (round-half-up:
integer cast after adding `0.5`; the exact value is `700.5`, truncating to
`700` in exact arithmetic and in binary floating point alike),
`size_pct_scale = 10000` and risk cap `low`. -/
theorem C8_drift_default_entropy_allocation :
    default_entropy.combined_entropy = 7/20
    ∧ (allocate .drift default_entropy SIZE_PCT_SCALE).direction = .long
    ∧ (allocate .drift default_entropy SIZE_PCT_SCALE).size_pct_q = 700
    ∧ (allocate .drift default_entropy SIZE_PCT_SCALE).size_pct_scale = 10000
    ∧ (allocate .drift default_entropy SIZE_PCT_SCALE).risk_cap = .low
    ∧ (allocate .drift default_entropy SIZE_PCT_SCALE).final_factor = 7/25 := by
  refine ⟨?_, ?_, ?_, ?_, ?_, ?_⟩
  · simp [default_entropy, EntropyState.combined_entropy]
    norm_num
  · simp [allocate, REGIME_POSTURE_MAP]
  · simp [allocate, default_entropy, EntropyState.combined_entropy, REGIME_POSTURE_MAP,
      pyInt, SIZE_PCT_SCALE]
    norm_num
  · simp [allocate, SIZE_PCT_SCALE]
  · simp [allocate, REGIME_POSTURE_MAP]
  · simp [allocate, default_entropy, EntropyState.combined_entropy, REGIME_POSTURE_MAP]
    norm_num

/-- C9: `bind_authority` yields v0.1 whenever the certificate path is
absent, the certificate fails to load, its version is not v0.2, its
integrity check fails (Ed25519 when signed; unsigned rejected unless
`allow_legacy`, then the deprecated self-hash), or its
`build_meta_sha256` does not equal the current build meta's
`combined_sha256`; it yields v0.2 exactly when all checks pass, recording
the certificate body hash and `promoted_at`.  (The current combined hash
is assumed present and non-empty, as a SHA-256 hex digest always is.) -/
theorem C9_bind_authority_fail_closed (sigVerify : Certificate → Bool)
    (selfHash bodyHash : Certificate → String)
    (cert_path : Option String) (loadResult : Except String Certificate)
    (bm : BuildMeta) (allow_legacy_cert : Bool) (started_at h : String)
    (hbm : bm.combined_sha256 = some h) (hne : h ≠ "") :
    ((bind_authority sigVerify selfHash bodyHash cert_path loadResult (some bm)
        allow_legacy_cert started_at).level = .v0_2
      ↔ ∃ path cert, cert_path = some path ∧ loadResult = .ok cert
          ∧ cert.cert_version = some "v0.2"
          ∧ verify_certificate_integrity sigVerify selfHash cert allow_legacy_cert = true
          ∧ cert.build_meta_sha256 = some h)
    ∧ ((bind_authority sigVerify selfHash bodyHash cert_path loadResult (some bm)
          allow_legacy_cert started_at).level = .v0_1
        ∨ (bind_authority sigVerify selfHash bodyHash cert_path loadResult (some bm)
          allow_legacy_cert started_at).level = .v0_2)
    ∧ (∀ cert, loadResult = .ok cert →
        (bind_authority sigVerify selfHash bodyHash cert_path loadResult (some bm)
          allow_legacy_cert started_at).level = .v0_2 →
        (bind_authority sigVerify selfHash bodyHash cert_path loadResult (some bm)
            allow_legacy_cert started_at).cert_body_sha256 = some (bodyHash cert)
        ∧ (bind_authority sigVerify selfHash bodyHash cert_path loadResult (some bm)
            allow_legacy_cert started_at).promoted_at = cert.promoted_at) := by
  have hmatch : ∀ cert : Certificate,
      verify_build_meta_match cert bm = true ↔ cert.build_meta_sha256 = some h := by
    intro cert
    unfold verify_build_meta_match
    rw [hbm]
    cases hc : cert.build_meta_sha256 with
    | none => simp
    | some ch =>
      dsimp only
      by_cases h1 : ch = "" ∨ h = ""
      · rcases h1 with h1 | h1
        · subst h1
          rw [if_pos (Or.inl rfl)]
          constructor
          · intro hx; simp at hx
          · intro hx
            injection hx with hx
            exact absurd hx.symm hne
        · exact absurd h1 hne
      · rw [if_neg h1]
        by_cases h2 : ch = h
        · rw [if_pos h2]
          simp [h2]
        · rw [if_neg h2]
          constructor
          · intro hx; simp at hx
          · intro hx; injection hx with hx; exact absurd hx h2
  cases cert_path with
  | none =>
    refine ⟨?_, ?_, ?_⟩
    · simp [bind_authority]
    · simp [bind_authority]
    · intro cert _ hlev
      simp [bind_authority] at hlev
  | some path =>
    cases loadResult with
    | error msg =>
      refine ⟨?_, ?_, ?_⟩
      · simp [bind_authority]
      · simp [bind_authority]
      · intro cert hload
        simp at hload
    | ok cert =>
      by_cases hv : cert.cert_version = some "v0.2"
      · by_cases hi : verify_certificate_integrity sigVerify selfHash cert
            allow_legacy_cert = true
        · by_cases hb : verify_build_meta_match cert bm = true
          · have hlev : (bind_authority sigVerify selfHash bodyHash (some path)
                (.ok cert) (some bm) allow_legacy_cert started_at)
                = { level := .v0_2, cert_path := some path,
                    cert_body_sha256 := some (bodyHash cert),
                    build_meta_sha256 := cert.build_meta_sha256,
                    promoted_at := cert.promoted_at, demotions := [],
                    started_at := started_at } := by
              simp [bind_authority, hv, hi, hb]
            refine ⟨?_, ?_, ?_⟩
            · rw [hlev]
              constructor
              · intro _
                exact ⟨path, cert, rfl, rfl, hv, hi, (hmatch cert).mp hb⟩
              · intro _
                rfl
            · rw [hlev]; right; rfl
            · intro cert2 hload hl
              injection hload with hload
              subst hload
              rw [hlev]
              exact ⟨rfl, rfl⟩
          · have hb2 : verify_build_meta_match cert bm = false :=
              Bool.eq_false_iff.mpr hb
            have hlev : (bind_authority sigVerify selfHash bodyHash (some path)
                (.ok cert) (some bm) allow_legacy_cert started_at).level = .v0_1 := by
              simp [bind_authority, hv, hi, hb2]
            refine ⟨?_, ?_, ?_⟩
            · rw [hlev]
              constructor
              · intro hx; simp at hx
              · rintro ⟨path2, cert2, -, hload, -, -, hbm2⟩
                injection hload with hload
                subst hload
                exact absurd ((hmatch cert).mpr hbm2) hb
            · left; exact hlev
            · intro cert2 hload hl
              rw [hlev] at hl
              simp at hl
        · have hi2 : verify_certificate_integrity sigVerify selfHash cert
              allow_legacy_cert = false := Bool.eq_false_iff.mpr hi
          have hlev : (bind_authority sigVerify selfHash bodyHash (some path)
              (.ok cert) (some bm) allow_legacy_cert started_at).level = .v0_1 := by
            simp [bind_authority, hv, hi2]
          refine ⟨?_, ?_, ?_⟩
          · rw [hlev]
            constructor
            · intro hx; simp at hx
            · rintro ⟨path2, cert2, -, hload, -, hi3, -⟩
              injection hload with hload
              subst hload
              exact absurd hi3 hi
          · left; exact hlev
          · intro cert2 hload hl
            rw [hlev] at hl
            simp at hl
      · have hlev : (bind_authority sigVerify selfHash bodyHash (some path)
            (.ok cert) (some bm) allow_legacy_cert started_at).level = .v0_1 := by
          simp [bind_authority, hv]
        refine ⟨?_, ?_, ?_⟩
        · rw [hlev]
          constructor
          · intro hx; simp at hx
          · rintro ⟨path2, cert2, -, hload, hv2, -, -⟩
            injection hload with hload
            subst hload
            exact absurd hv2 hv
        · left; exact hlev
        · intro cert2 hload hl
          rw [hlev] at hl
          simp at hl

/-- Signature oracle for the C9 witness: every signature verifies. -/
def c9SigVerify : Certificate → Bool := fun _ => true

/-- Self-hash oracle for the C9 witness. -/
def c9SelfHash : Certificate → String := fun _ => ""

/-- Body-hash oracle for the C9 witness. -/
def c9BodyHash : Certificate → String := fun _ => "BODYHASH"

/-- A concrete signed v0.2 certificate for the C9 witness. -/
def c9Cert : Certificate :=
  { cert_version := some "v0.2", build_meta_sha256 := some "H",
    promoted_at := some "2026-01-10T00:00:00+00:00",
    cert_sig := some "SIG", cert_sha256 := none }

/-- A concrete current build meta for the C9 witness. -/
def c9BuildMeta : BuildMeta := { combined_sha256 := some "H" }

/-- Witness for C9: the characterization applied at a concrete signed
certificate matching a concrete current build meta. -/
theorem C9_bind_authority_fail_closed_witness :
    (c9BuildMeta.combined_sha256 = some "H" ∧ "H" ≠ "")
    ∧ (((bind_authority c9SigVerify c9SelfHash c9BodyHash
          (some "PROMOTION_CERT_v0_2.json") (.ok c9Cert) (some c9BuildMeta)
          false "2026-01-10T00:00:01+00:00").level = .v0_2
        ↔ ∃ path cert, (some "PROMOTION_CERT_v0_2.json" : Option String) = some path
            ∧ (Except.ok c9Cert : Except String Certificate) = .ok cert
            ∧ cert.cert_version = some "v0.2"
            ∧ verify_certificate_integrity c9SigVerify c9SelfHash cert false = true
            ∧ cert.build_meta_sha256 = some "H")
      ∧ ((bind_authority c9SigVerify c9SelfHash c9BodyHash
            (some "PROMOTION_CERT_v0_2.json") (.ok c9Cert) (some c9BuildMeta)
            false "2026-01-10T00:00:01+00:00").level = .v0_1
          ∨ (bind_authority c9SigVerify c9SelfHash c9BodyHash
            (some "PROMOTION_CERT_v0_2.json") (.ok c9Cert) (some c9BuildMeta)
            false "2026-01-10T00:00:01+00:00").level = .v0_2)
      ∧ (∀ cert, (Except.ok c9Cert : Except String Certificate) = .ok cert →
          (bind_authority c9SigVerify c9SelfHash c9BodyHash
            (some "PROMOTION_CERT_v0_2.json") (.ok c9Cert) (some c9BuildMeta)
            false "2026-01-10T00:00:01+00:00").level = .v0_2 →
          (bind_authority c9SigVerify c9SelfHash c9BodyHash
              (some "PROMOTION_CERT_v0_2.json") (.ok c9Cert) (some c9BuildMeta)
              false "2026-01-10T00:00:01+00:00").cert_body_sha256
            = some (c9BodyHash cert)
          ∧ (bind_authority c9SigVerify c9SelfHash c9BodyHash
              (some "PROMOTION_CERT_v0_2.json") (.ok c9Cert) (some c9BuildMeta)
              false "2026-01-10T00:00:01+00:00").promoted_at = cert.promoted_at)) :=
  ⟨⟨rfl, by decide⟩,
    C9_bind_authority_fail_closed c9SigVerify c9SelfHash c9BodyHash
      (some "PROMOTION_CERT_v0_2.json") (.ok c9Cert) c9BuildMeta false
      "2026-01-10T00:00:01+00:00" "H" rfl (by decide)⟩

/-- C10: the per-symbol loop body updates the dedup slot unconditionally —
the emit return value is ignored.  First conjunct: the post-event state is
the same whether the spine append failed or succeeded (no rollback).
Second: on append failure nothing reaches the spine (the record is lost).
Third: re-processing the symbol from the post-failure state — with the
same system flags and regime, hence the same computed veto reason or
`(direction, size_pct_q, risk_cap)` triple — emits nothing, so the lost
record is never re-emitted.  `processSymbol` is the shared loop body of
`run_runtime` and `run_replay`, so this covers both modes. -/
theorem C10_dedup_slot_updated_despite_write_failure (c w' : Bool) (s : RouterState)
    (sym e t e' t' : String) :
    (processSymbol c false s sym e t).1 = (processSymbol c true s sym e t).1
    ∧ (processSymbol c false s sym e t).2 = []
    ∧ (processSymbol c w' ((processSymbol c false s sym e t).1) sym e' t').2 = [] := by
  refine ⟨?_, ?_, ?_⟩
  · cases hres : evaluate_constraints s sym <;>
      simp only [processSymbol, hres] <;> split_ifs <;> rfl
  · cases hres : evaluate_constraints s sym <;>
      simp only [processSymbol, hres] <;> split_ifs <;>
      simp [emit_veto, write_event, emit_intent_no_write]
  · cases hres : evaluate_constraints s sym with
    | veto r =>
      by_cases hc : get_last_veto_reason s sym ≠ some r.value
      · have he : evaluate_constraints (set_last_veto_reason s sym r.value) sym
            = .veto r := by rw [eval_set_veto]; exact hres
        simp only [processSymbol, hres, if_pos hc, he, get_last_veto_reason_set]
        simp
      · simp only [processSymbol, hres, if_neg hc]
    | alloc a =>
      by_cases hg : a.direction ≠ .flat ∧ c = false
      · by_cases hc : get_last_veto_reason s sym ≠ some VetoReason.authority_gate.value
        · have he : evaluate_constraints
              (set_last_veto_reason s sym VetoReason.authority_gate.value) sym
              = .alloc a := by rw [eval_set_veto]; exact hres
          simp only [processSymbol, hres, if_pos hg, if_pos hc, he,
            get_last_veto_reason_set]
          simp
        · simp only [processSymbol, hres, if_pos hg, if_neg hc]
      · by_cases hs : should_emit_intent a (get_last_allocation s sym) = true
        · have he : evaluate_constraints (set_last_allocation s sym a) sym
              = .alloc a := by rw [eval_set_alloc]; exact hres
          simp only [processSymbol, hres, if_neg hg, if_pos hs, he,
            get_last_allocation_set, should_emit_intent_self]
          simp
        · simp only [processSymbol, hres, if_neg hg, if_neg hs]

end SynthdeskRouter
